import Mathlib

set_option linter.unusedVariables false

/- Shallow embedding of the opnsense MCP server core (src/opnsense_mcp):
   the DHCP/ARP reconciliation tools, the search resolver, the SSE event
   broker and the JSON-RPC dispatcher.

   Conventions for translating Python dicts:
   - a dict string field is `Option String` where key presence matters and
     `String` with `""` standing for an absent or null value otherwise;
   - Python truthiness of a string value is `· ≠ ""`, of an optional value
     `optTruthy`;
   - Python sets consumed only through membership are lists, membership
     preserved;
   - `str.lower()` is `lowerStr` (per-character `Char.toLower`);
   - `needle in haystack` on strings is `pyIn`. -/

/-- Python truthiness of an optional string: key present with a non-empty
value. -/
def optTruthy : Option String → Bool
  | some s => s != ""
  | none => false

/-- Python `a or b` on optional strings: `a` when truthy, else `b`. -/
def pyOr (a b : Option String) : Option String :=
  if optTruthy a then a else b

/-- Model of Python `str.lower()`: lower-case every character. -/
def lowerStr (s : String) : String := String.mk (s.data.map Char.toLower)

/-- Model of Python `str.strip()`: drop leading and trailing whitespace. -/
def stripStr (s : String) : String :=
  String.mk
    (((s.data.dropWhile Char.isWhitespace).reverse.dropWhile
      Char.isWhitespace).reverse)

/-- Whether `p` occurs at the head of `l`. -/
def leadsList : List Char → List Char → Bool
  | [], _ => true
  | _ :: _, [] => false
  | a :: as, b :: bs => a == b && leadsList as bs

/-- Whether `p` occurs contiguously somewhere in `l`. -/
def occursIn (p : List Char) : List Char → Bool
  | [] => p.isEmpty
  | c :: rest => leadsList p (c :: rest) || occursIn p rest

/-- Python `needle in hay` on strings: contiguous substring occurrence. -/
def pyIn (needle hay : String) : Bool := occursIn needle.data hay.data

/-- First-failure-aborts traversal: models a Python loop that raises on the
first bad element (e.g. a pydantic `ValidationError`). -/
def mapOption (f : α → Option β) : List α → Option (List β)
  | [] => some []
  | a :: as =>
    match f a, mapOption f as with
    | some b, some bs => some (b :: bs)
    | _, _ => none

/-- One raw ARP/NDP table row as returned by the collaborator. `""` encodes
an absent or null field. Optional pass-through fields of the pydantic
`ARPEntry` model that no code path reads or writes (`expires`, `permanent`,
`type`, `description`) are omitted. -/
structure RawNeighbor where
  ip : String
  mac : String
  intf : String
  hostname : String
deriving DecidableEq

/-- One raw DHCP lease row (a Python dict); `none` encodes an absent key.
`clientHostname` models the `client-hostname` key. Pass-through fields that
no claim-relevant code path reads (`start`, `end`, `lease_type`,
`description`) are omitted. -/
structure RawLease where
  ip : Option String
  address : Option String
  mac : Option String
  hostname : Option String
  clientHostname : Option String
  online : Option Bool
deriving DecidableEq

/-- The `params` dict restricted to the keys any tool reads; `none` encodes
an absent key. -/
structure Params where
  search : Option String
  mac : Option String
  ip : Option String
  ipv6 : Option String
deriving DecidableEq

/-- Model of `arp_ips` / `ndp_ips` (dhcp.py lines 55-58): the truthy `ip` fields of a
neighbor table. Python builds a set consumed only through membership; a list
is membership-equivalent. -/
def tableIps (t : List RawNeighbor) : List String :=
  (t.map RawNeighbor.ip).filter (fun s => s != "")

/-- Model of `arp_macs` / `ndp_macs` (dhcp.py lines 55-58): the truthy `mac` fields
of a neighbor table. -/
def tableMacs (t : List RawNeighbor) : List String :=
  (t.map RawNeighbor.mac).filter (fun s => s != "")

/-- Membership of a possibly-absent field in a neighbor-table set
(`ip in arp_ips`): Python `None` is never a member since the sets keep only
truthy values. -/
def optMem (o : Option String) (l : List String) : Bool :=
  match o with
  | some s => l.contains s
  | none => false

/-- Model of `DHCPTool._normalize_lease_entry`: when the dict has an `address` key
and no `ip` key, pop `address` into `ip`. -/
def normalizeLease (l : RawLease) : RawLease :=
  if l.address.isSome && l.ip.isNone then
    { l with ip := l.address, address := none }
  else l

/-- Model of `DHCPLease.model_dump()` restricted to claim-relevant fields. -/
structure LeaseOut where
  ip : String
  mac : String
  hostname : Option String
  online : Option Bool
  actual_status : String
deriving DecidableEq

/-- The cross-reference condition of dhcp.py lines 66-71 and 85-90:
`(ip in table_ips) or (mac in table_macs)`, then the raw `online` flag. -/
def leaseOnlineCond (tblIps tblMacs : List String) (n : RawLease) : Bool :=
  optMem n.ip tblIps || optMem n.mac tblMacs || (n.online == some true)

/-- The per-lease body of `DHCPTool.execute` (dhcp.py lines 62-77 for v4 and
81-96 for v6, textually repeated there, identical up to the table sets):
normalize, cross-reference the lease against the given neighbor-table ip/mac
sets, attach `actual_status`, then validate as `DHCPLease` — which requires
`ip` and `mac` to be strings, so an absent one raises `ValidationError`,
modelled as `none`. The status is written as in the source:
`"Online" if is_in else ("Online" if dhcp_status else "Offline")`. -/
def processLease (tblIps tblMacs : List String) (entry : RawLease) :
    Option LeaseOut :=
  match (normalizeLease entry).ip, (normalizeLease entry).mac with
  | some i, some m =>
    some { ip := i, mac := m,
           hostname := (normalizeLease entry).hostname,
           online := (normalizeLease entry).online,
           actual_status :=
             if optMem (normalizeLease entry).ip tblIps
                 || optMem (normalizeLease entry).mac tblMacs then "Online"
             else if (normalizeLease entry).online == some true then "Online"
             else "Offline" }
  | _, _ => none

/-- The collaborator surface `DHCPTool.execute` consumes. -/
structure DhcpClient where
  dhcpv4Leases : List RawLease
  dhcpv6Leases : List RawLease
  arpTable : List RawNeighbor
  ndpTable : List RawNeighbor

/-- The result dict of `DHCPTool.execute`; `dhcp_status` is `none` when the
key is absent (the dummy payload has no such key). -/
structure DhcpResult where
  dhcpv4 : List LeaseOut
  dhcpv6 : List LeaseOut
  status : String
  dhcp_status : Option String
deriving DecidableEq

/-- Model of `DHCPTool._get_dummy_data` (claim-relevant fields). -/
def dhcpDummyData : DhcpResult :=
  { dhcpv4 := [{ ip := "192.168.1.100", mac := "00:11:22:33:44:55",
                 hostname := some "dummy-client", online := some true,
                 actual_status := "Online" }],
    dhcpv6 := [{ ip := "2001:db8::100", mac := "00:11:22:33:44:66",
                 hostname := some "dummy6-client", online := some true,
                 actual_status := "Online" }],
    status := "dummy",
    dhcp_status := none }

/-- Model of `DHCPTool.execute`. The `params` argument is taken, as in the source
signature, and never read by the body. The `leases_v4 is None` status branch
is unreachable here because the collaborator returns sequences; the exact
`ValidationError` text of the error branch is abbreviated. -/
def dhcpExecute (client : Option DhcpClient) (params : Params) : DhcpResult :=
  match client with
  | none => dhcpDummyData
  | some c =>
    match mapOption (processLease (tableIps c.arpTable) (tableMacs c.arpTable))
            c.dhcpv4Leases,
          mapOption (processLease (tableIps c.ndpTable) (tableMacs c.ndpTable))
            c.dhcpv6Leases with
    | some l4, some l6 =>
      { dhcpv4 := l4, dhcpv6 := l6, status := "success",
        dhcp_status := some (if l4.isEmpty && l6.isEmpty then
          "No DHCP leases found. Check DHCP server status, configuration, and API permissions."
        else "OK") }
    | _, _ =>
      { dhcpv4 := [], dhcpv6 := [], status := "error",
        dhcp_status := some "Error retrieving DHCP leases: ValidationError" }

/-- Shape of `ARPEntry(**entry).model_dump()` after enrichment, restricted to the
fields the code reads or writes; `""` encodes `None`. -/
structure EntryOut where
  ip : String
  mac : String
  intf : String
  manufacturer : String
  hostname : String
  dhcp_status : String
deriving DecidableEq

/-- Return value of the optional `resolve_host_info` collaborator
capability. `dhcpv4 = some d` models a present, non-empty nested lease dict
(Python truthiness of a dict). -/
structure ResolveInfo where
  ip : Option String
  mac : Option String
  hostname : Option String
  dhcpv4 : Option RawLease

/-- The collaborator surface `ARPTool.execute` consumes;
`resolveHostInfo = none` models a client without that attribute. -/
structure ArpClient where
  arpTable : List RawNeighbor
  ndpTable : List RawNeighbor
  dhcpv4Leases : List RawLease
  dhcpv6Leases : List RawLease
  resolveHostInfo : Option (String → ResolveInfo)

/-- The result dict of `ARPTool.execute`. -/
structure ArpResult where
  arp : List EntryOut
  ndp : List EntryOut
  status : String
deriving DecidableEq

/-- A Python dict insert modelled on an association list: the new binding
shadows any earlier one (lookups scan front-to-back). -/
def dictInsert (m : List (String × RawLease)) (k : String) (v : RawLease) :
    List (String × RawLease) := (k, v) :: m

/-- Dict lookup: first (most recently inserted) binding wins. -/
def dictFind (m : List (String × RawLease)) (k : String) : Option RawLease :=
  (m.find? (fun p => p.1 == k)).map Prod.snd

/-- Model of the `dhcp_ip_map` / `dhcp_mac_map` construction (arp.py lines 54-73): for
each v4 then v6 lease, key the truthy `ip or address` into the ip map and
the truthy lower-cased `mac` into the mac map; later leases shadow earlier
ones. Called on `dhcpv4Leases ++ dhcpv6Leases`, matching the two loops. -/
def buildDhcpMaps (leases : List RawLease) :
    List (String × RawLease) × List (String × RawLease) :=
  leases.foldl
    (fun maps lease =>
      let ipOpt := pyOr lease.ip lease.address
      let m1 := if optTruthy ipOpt then dictInsert maps.1 (ipOpt.getD "") lease
        else maps.1
      let m2 := match lease.mac with
        | some m => if m != "" then dictInsert maps.2 (lowerStr m) lease else maps.2
        | none => maps.2
      (m1, m2))
    ([], [])

/-- Model of `ARPEntry(**entry).model_dump()` on a raw neighbor row: canonical fields
carried over, optional ones defaulting to `None` (here `""`). -/
def toEntryOut (r : RawNeighbor) : EntryOut :=
  { ip := r.ip, mac := r.mac, intf := r.intf, manufacturer := "",
    hostname := r.hostname, dhcp_status := "" }

/-- Model of `ARPTool._fill_manufacturer_and_dhcp`. `oui` models the module-level
`OUILookup().lookup`, `""` standing for a `None` result. -/
def fillManufacturerAndDhcp (oui : String → String)
    (ipMap macMap : List (String × RawLease)) (e : EntryOut) : EntryOut :=
  let e1 := if e.manufacturer == "" then
      (if e.mac != "" then { e with manufacturer := oui e.mac } else e)
    else e
  let byIp := if e1.ip != "" then dictFind ipMap e1.ip else none
  let dhcpInfo := match byIp with
    | some l => some l
    | none => if e1.mac != "" then dictFind macMap (lowerStr e1.mac) else none
  match dhcpInfo with
  | none => e1
  | some info =>
    let hn := pyOr info.hostname info.clientHostname
    let e2 := if e1.hostname == "" && optTruthy hn then
        { e1 with hostname := hn.getD "" } else e1
    { e2 with dhcp_status := if info.online == some true then "Online" else "Offline" }

/-- Model of `match_any` (arp.py lines 143-149) over the raw entry dict: some query
is a substring of the lower-cased ip, mac, or hostname. -/
def matchAny (queries : List String) (entry : RawNeighbor) : Bool :=
  queries.any (fun q =>
    pyIn q (lowerStr entry.ip) || pyIn q (lowerStr entry.mac)
      || pyIn q (lowerStr entry.hostname))

/-- Token-set expansion of the search branch (arp.py lines 99-136):
identifiers returned by `resolve_host_info` — top-level ip/mac/hostname and
the ones nested under a truthy `dhcpv4` key — plus the raw query itself,
lower-cased, with falsy entries dropped. Python builds sets; a list with
possible duplicates is membership-equivalent and only consumed by `any`. -/
def resolveQueries (client : ArpClient) (searchQuery : String) : List String :=
  let base :=
    match client.resolveHostInfo with
    | none => [searchQuery]
    | some f =>
      let info := f searchQuery
      let ips := (if optTruthy info.ip then [info.ip.getD ""] else []) ++
        (match info.dhcpv4 with
         | none => []
         | some d =>
           if optTruthy (pyOr d.ip d.address) then [(pyOr d.ip d.address).getD ""]
           else [])
      let macs := (if optTruthy info.mac then [info.mac.getD ""] else []) ++
        (match info.dhcpv4 with
         | none => []
         | some d => if optTruthy d.mac then [d.mac.getD ""] else [])
      let hostnames :=
        (if optTruthy info.hostname then [info.hostname.getD ""] else []) ++
        (match info.dhcpv4 with
         | none => []
         | some d =>
           if optTruthy (pyOr d.hostname d.clientHostname) then
             [(pyOr d.hostname d.clientHostname).getD ""]
           else [])
      [searchQuery] ++ ips ++ macs ++ hostnames
  (base.map lowerStr).filter (fun q => q != "")

/-- The two dhcp maps of one `ARPTool.execute` call. -/
def arpDhcpMaps (c : ArpClient) :
    List (String × RawLease) × List (String × RawLease) :=
  buildDhcpMaps (c.dhcpv4Leases ++ c.dhcpv6Leases)

/-- Enrichment of one raw neighbor row inside `ARPTool.execute`:
`self._fill_manufacturer_and_dhcp(ARPEntry(**entry).model_dump(), ...)`. -/
def enrichOne (oui : String → String) (c : ArpClient) (r : RawNeighbor) :
    EntryOut :=
  fillManufacturerAndDhcp oui (arpDhcpMaps c).1 (arpDhcpMaps c).2 (toEntryOut r)

/-- The fully enriched, unfiltered ARP list. -/
def enrichedArp (oui : String → String) (c : ArpClient) : List EntryOut :=
  c.arpTable.map (enrichOne oui c)

/-- The fully enriched, unfiltered NDP list. -/
def enrichedNdp (oui : String → String) (c : ArpClient) : List EntryOut :=
  c.ndpTable.map (enrichOne oui c)

/-- The standalone filter block of `ARPTool.execute` (arp.py lines 187-223):
a truthy `mac` is lower-cased and compared for equality on both lists, a
truthy `ip` filters the ARP list by exact equality, a truthy `ipv6` the NDP
list. -/
def applyStandaloneFilters (params : Params) (arpE ndpE : List EntryOut) :
    ArpResult :=
  let macF := params.mac.getD ""
  let arp1 := if macF != "" then
      arpE.filter (fun e => lowerStr e.mac == lowerStr macF)
    else arpE
  let ndp1 := if macF != "" then
      ndpE.filter (fun e => lowerStr e.mac == lowerStr macF)
    else ndpE
  let ipF := params.ip.getD ""
  let arp2 := if ipF != "" then arp1.filter (fun e => e.ip == ipF) else arp1
  let v6F := params.ipv6.getD ""
  let ndp2 := if v6F != "" then ndp1.filter (fun e => e.ip == v6F) else ndp1
  { arp := arp2, ndp := ndp2, status := "success" }

/-- Model of `ARPTool._get_dummy_data` (claim-relevant fields; absent keys are ""). -/
def arpDummyData : ArpResult :=
  { arp := [{ ip := "192.168.1.1", mac := "aa:bb:cc:dd:ee:ff", intf := "em0",
              manufacturer := "TestCorp", hostname := "",
              dhcp_status := "Online" }],
    ndp := [{ ip := "fe80::1", mac := "aa:bb:cc:dd:ee:ff", intf := "em0",
              manufacturer := "TestCorp", hostname := "",
              dhcp_status := "Online" }],
    status := "success" }

/-- Model of `ARPTool.execute` (arp.py lines 38-223): dummy data without a client;
with a truthy `search`, either the wildcard full-table branch or the
token-expansion filter branch, both returning before the standalone
filters; otherwise full tables with the standalone filters. -/
def arpExecute (oui : String → String) (client : Option ArpClient)
    (params : Params) : ArpResult :=
  match client with
  | none => arpDummyData
  | some c =>
    let s := params.search.getD ""
    if s != "" then
      if stripStr s == "*" || stripStr s == "" then
        { arp := enrichedArp oui c, ndp := enrichedNdp oui c,
          status := "success" }
      else
        { arp := (c.arpTable.filter (matchAny (resolveQueries c s))).map
            (enrichOne oui c),
          ndp := (c.ndpTable.filter (matchAny (resolveQueries c s))).map
            (enrichOne oui c),
          status := "success" }
    else
      applyStandaloneFilters params (enrichedArp oui c) (enrichedNdp oui c)

/-- An OUI lookup that knows no manufacturer. -/
def ouiNone : String → String := fun _ => ""

/-- The C2 scenario lease. -/
def leaseTrogdor : RawLease :=
  { ip := some "10.0.0.5", address := none, mac := some "aa:bb:cc:00:11:22",
    hostname := some "trogdor-pc", clientHostname := none, online := none }

/-- The C2 scenario neighbor entry: same ip/mac, hostname null. -/
def neighborTrogdor : RawNeighbor :=
  { ip := "10.0.0.5", mac := "aa:bb:cc:00:11:22", intf := "em0",
    hostname := "" }

/-- A `resolve_host_info` result with nothing in it. -/
def emptyResolveInfo : ResolveInfo :=
  { ip := none, mac := none, hostname := none, dhcpv4 := none }

/-- C2 collaborator whose resolver returns the lease identifiers at top
level for the query `"trogdor"`. -/
def clientTrogdorDirect : ArpClient :=
  { arpTable := [neighborTrogdor], ndpTable := [],
    dhcpv4Leases := [leaseTrogdor], dhcpv6Leases := [],
    resolveHostInfo := some (fun q =>
      if q == "trogdor" then
        { ip := some "10.0.0.5", mac := some "aa:bb:cc:00:11:22",
          hostname := some "trogdor-pc", dhcpv4 := none }
      else emptyResolveInfo) }

/-- C2 collaborator whose resolver returns the lease nested under the
`dhcpv4` key for the query `"trogdor"`. -/
def clientTrogdorNested : ArpClient :=
  { arpTable := [neighborTrogdor], ndpTable := [],
    dhcpv4Leases := [leaseTrogdor], dhcpv6Leases := [],
    resolveHostInfo := some (fun q =>
      if q == "trogdor" then
        { ip := none, mac := none, hostname := none,
          dhcpv4 := some leaseTrogdor }
      else emptyResolveInfo) }

/-- C7 table: two entries sharing the `aa:bb` prefix but only one with the
full filtered mac. -/
def clientTwoMacs : ArpClient :=
  { arpTable := [{ ip := "10.0.0.1", mac := "aa:bb:cc:dd:ee:ff",
                   intf := "em0", hostname := "" },
                 { ip := "10.0.0.2", mac := "aa:bb:00:11:22:33",
                   intf := "em0", hostname := "" }],
    ndpTable := [], dhcpv4Leases := [], dhcpv6Leases := [],
    resolveHostInfo := none }

/-- Shape of a `get_system_status` result dict, abstracted: `status` and `error` are
the fields the error path writes (`""` = key absent); `payload` stands for
all other keys of a collaborator-supplied result. -/
structure SysResult where
  status : String
  error : String
  payload : String
deriving DecidableEq

/-- Collaborator surface for `SystemTool.execute`. -/
structure SysClient where
  getSystemStatus : SysResult

/-- Model of `SystemTool.execute` (system.py lines 37-71): with no client, the
attribute access `self.client.get_system_status` on `None` raises
`AttributeError`, caught by the handler, which returns the structured error
object (the Python message quotes are elided); with a client the
collaborator result is returned verbatim. The mock-instance check at lines
56-60 only logs. -/
def systemExecute (client : Option SysClient) : SysResult :=
  match client with
  | none =>
    { status := "error",
      error := "Failed to get system status: NoneType object has no attribute get_system_status",
      payload := "" }
  | some c => c.getSystemStatus

/-- One SSE event dict as yielded to the transport. -/
structure SseEvent where
  event : String
  id : String
  data : String
deriving DecidableEq

/-- Body of `POST /send/client_id`: `data` holds the JSON-serialized
payload; `json.dumps` of the absent-key default is the two-character empty
object. -/
structure SendData where
  event : Option String
  id : Option String
  data : Option String
deriving DecidableEq

/-- The event dict built by `send_to_client` (lines 558-562); `fallbackId`
models the nondeterministic `str(id(data))` default. -/
def wrapEvent (d : SendData) (fallbackId : String) : SseEvent :=
  { event := d.event.getD "message",
    id := d.id.getD fallbackId,
    data := d.data.getD "\x7b\x7d" }

/-- The `client_connections` registry: client id → queue. A queue item is
`none` for the close sentinel and `some e` for a deliverable event. The
dict is modelled up to lookup; no code iterates the registry. -/
abbrev Conns := List (String × List (Option SseEvent))

/-- Dict lookup on the registry. -/
def lookupConn : Conns → String → Option (List (Option SseEvent))
  | [], _ => none
  | (k, q) :: rest, c => if k == c then some q else lookupConn rest c

/-- Dict `del` on the registry. -/
def removeConn : Conns → String → Conns
  | [], _ => []
  | (k, q) :: rest, c =>
    if k == c then removeConn rest c else (k, q) :: removeConn rest c

/-- Dict assignment on the registry: the new binding shadows any older. -/
def setConn (s : Conns) (c : String) (q : List (Option SseEvent)) : Conns :=
  (c, q) :: removeConn s c

/-- Registration step of `event_generator` (line 531): a fresh empty
`asyncio.Queue`, replacing any previous queue for the id. -/
def subscribeConn (s : Conns) (c : String) : Conns := setConn s c []

/-- The `finally` cleanup of `event_generator` (lines 546-548): membership
test then `del`. -/
def unsubscribeConn (s : Conns) (c : String) : Conns := removeConn s c

/-- Outcome of `send_to_client`: success, or a raised `HTTPException`. -/
inductive SendOutcome where
  | sent
  | httpError (status : Nat) (detail : String)
deriving DecidableEq

/-- Model of `send_to_client` (server_sse.py lines 552-565): a 404 error and no
mutation when the id has no registered queue, otherwise exactly one wrapped
event appended to that queue. -/
def sendToClient (s : Conns) (c : String) (d : SendData) (fallbackId : String) :
    SendOutcome × Conns :=
  match lookupConn s c with
  | none => (.httpError 404 ("Client " ++ c ++ " not connected"), s)
  | some q => (.sent, setConn s c (q ++ [some (wrapEvent d fallbackId)]))

/-- The synthetic first event of `event_generator` (lines 524-528), with
its `json.dumps` payload. -/
def connectedEvent (c : String) : SseEvent :=
  { event := "connected", id := c,
    data := "\x7b\"status\": \"connected\", \"client_id\": \"" ++ c ++ "\"\x7d" }

/-- Events drained from the queue until the close sentinel (lines 534-541);
the generator blocks on an exhausted queue, so this is the delivered
prefix. -/
def drainQueue : List (Option SseEvent) → List SseEvent
  | [] => []
  | none :: _ => []
  | some e :: rest => e :: drainQueue rest

/-- What `event_generator` yields for client `c` whose queue eventually
holds `items`: the synthetic `connected` event first, then the drained
queue in order. -/
def generatorYields (c : String) (items : List (Option SseEvent)) :
    List SseEvent :=
  connectedEvent c :: drainQueue items

/-- The empty arguments dict. -/
def noParams : Params :=
  { search := none, mac := none, ip := none, ipv6 := none }

/-- The tool names the `call_tool` dispatch chain knows (lines 381-421). -/
def knownTools : List String :=
  ["arp", "dhcp", "get_logs", "lldp", "system", "fw_rules", "mkfw_rule",
   "rmfw_rule", "interface_list"]

/-- Outcome of one tool singleton execution: normal return of a stringified
result, or an exception with message `msg` escaping `execute`. -/
inductive ExecOutcome where
  | ok (text : String)
  | fail (msg : String)

/-- One content block of a tool-call response. -/
structure ContentBlock where
  type : String
  text : String
deriving DecidableEq

/-- The direct-call response body. -/
structure ToolCallResult where
  content : List ContentBlock
deriving DecidableEq

/-- Result of `call_tool`: a response, or a raised `HTTPException`. -/
inductive HttpResult where
  | ok (r : ToolCallResult)
  | httpError (status : Nat) (detail : String)
deriving DecidableEq

/-- Model of `call_tool` (server_sse.py lines 377-428). The explicit
`HTTPException(404)` raised for an unknown tool lies inside the `try`
block, whose blanket `except Exception` — and `HTTPException` subclasses
`Exception` — catches it, logs it, and raises
`HTTPException(500, "Error executing tool: " + str(e))` instead; Starlette
stringifies an `HTTPException` as its status code, a colon and a space, and
the detail. An exception escaping a known tool takes the same 500 path with
the exception text. `execF` abstracts the tool singletons. -/
def callTool (execF : String → Params → ExecOutcome) (name : String)
    (args : Params) : HttpResult :=
  if knownTools.contains name then
    match execF name args with
    | .ok t => .ok { content := [{ type := "text", text := t }] }
    | .fail m => .httpError 500 ("Error executing tool: " ++ m)
  else
    .httpError 500 ("Error executing tool: 404: Tool not found: " ++ name)

/-- Shape of the `params` of a JSON-RPC request, restricted to the keys the endpoint
reads. -/
structure JsonRpcParams where
  name : Option String
  tool : Option String
  arguments : Option Params
  args : Option Params
  protocolVersion : Option String

/-- A JSON-RPC request; the `jsonrpc` version field is never read by the
endpoint and omitted. -/
structure JsonRpcRequest where
  id : Option String
  method : String
  params : Option JsonRpcParams

/-- Result payloads of the endpoint; the `initialize` and `tools/list`
payload contents are metadata irrelevant to the claims and abstracted. -/
inductive RpcPayload where
  | initResult (protocolVersion : String)
  | toolsList
  | toolResult (r : ToolCallResult)
deriving DecidableEq

/-- A JSON-RPC response: a result or an error object with code/message. -/
inductive JsonRpcResponse where
  | result (id : Option String) (payload : RpcPayload)
  | rpcError (id : Option String) (code : Int) (message : String)
deriving DecidableEq

/-- Python dict truthiness of an optional arguments dict, relative to the
modelled keys: an empty dict is falsy. -/
def paramsTruthy (p : Option Params) : Bool :=
  match p with
  | some q => q != noParams
  | none => false

/-- Model of `params.get("arguments") or params.get("args") or` the empty dict. -/
def argsOf (p : JsonRpcParams) : Params :=
  if paramsTruthy p.arguments then p.arguments.getD noParams
  else if paramsTruthy p.args then p.args.getD noParams
  else noParams

/-- An absent `params` object. -/
def emptyRpcParams : JsonRpcParams :=
  { name := none, tool := none, arguments := none, args := none,
    protocolVersion := none }

/-- Model of `jsonrpc_endpoint` (server_sse.py lines 430-514). The outer
`except Exception` fallback to a -32603 response is unreachable in this
total model. -/
def jsonrpcEndpoint (execF : String → Params → ExecOutcome)
    (req : JsonRpcRequest) : JsonRpcResponse :=
  let params := req.params.getD emptyRpcParams
  if req.method == "initialize" then
    let pv0 := params.protocolVersion.getD ""
    .result req.id (.initResult
      (if pv0 == "" || pv0 == "undefined" then "2024-11-05" else pv0))
  else if req.method == "tools/list" || req.method == "ListOfferings" then
    .result req.id .toolsList
  else if req.method == "tools/call" || req.method == "tool/call" then
    let toolName := pyOr params.name params.tool
    if optTruthy toolName then
      match callTool execF (toolName.getD "") (argsOf params) with
      | .ok r => .result req.id (.toolResult r)
      | .httpError st detail =>
        .rpcError req.id (if st == 404 then -32601 else -32603) detail
    else
      .rpcError req.id (-32602) "Invalid params: tool name is required"
  else
    .rpcError req.id (-32601) ("Method not found: " ++ req.method)

/-- Tool singletons that all succeed with a fixed text. -/
def execAllOk : String → Params → ExecOutcome := fun _ _ => .ok "ok"

/-- Tool singletons that all raise an exception with message `boom`. -/
def execRaises : String → Params → ExecOutcome := fun _ _ => .fail "boom"

lemma processLease_status (t1 t2 : List String) (e : RawLease) (out : LeaseOut)
    (h : processLease t1 t2 e = some out) :
    out.actual_status =
      (if leaseOnlineCond t1 t2 (normalizeLease e) then "Online" else "Offline") := by
  unfold processLease at h
  rcases hip : (normalizeLease e).ip with _ | i
  · rw [hip] at h
    rcases (normalizeLease e).mac with _ | m <;> simp at h
  · rcases hmac : (normalizeLease e).mac with _ | m
    · rw [hip, hmac] at h; simp at h
    · rw [hip, hmac] at h
      simp only [Option.some.injEq] at h
      rw [← h]
      unfold leaseOnlineCond
      rw [hip, hmac]
      cases hab : (optMem (some i) t1 || optMem (some m) t2) <;>
        cases hc : ((normalizeLease e).online == some true) <;>
        simp [hab, hc]

lemma processLease_isSome_congr (t1 t2 t3 t4 : List String) (e : RawLease) :
    (processLease t1 t2 e).isSome = (processLease t3 t4 e).isSome := by
  unfold processLease
  cases (normalizeLease e).ip <;> cases (normalizeLease e).mac <;> simp

lemma mapOption_isSome_congr (f g : α → Option β)
    (h : ∀ a, (f a).isSome = (g a).isSome) (l : List α) :
    (mapOption f l).isSome = (mapOption g l).isSome := by
  induction l with
  | nil => rfl
  | cons a as ih =>
    have ha := h a
    unfold mapOption
    cases hfa : f a <;> cases hga : g a <;>
      cases hf2 : mapOption f as <;> cases hg2 : mapOption g as <;>
      simp_all

/-- C1: a processed DHCPv4 lease gets `actual_status` `"Online"` iff its
(normalized) ip is in the ARP ip set, or its mac is in the ARP mac set, or
its raw `online` flag is truthy, and `"Offline"` otherwise; a DHCPv6 lease
likewise with the NDP sets in place of the ARP sets; and inside
`DHCPTool.execute` the v4 lease list never depends on the NDP table nor the
v6 lease list on the ARP table. -/
theorem dhcp_actual_status_reconciliation (c : DhcpClient) (p : Params)
    (entry : RawLease) (out4 out6 : LeaseOut)
    (h4 : processLease (tableIps c.arpTable) (tableMacs c.arpTable) entry = some out4)
    (h6 : processLease (tableIps c.ndpTable) (tableMacs c.ndpTable) entry = some out6) :
    (out4.actual_status = "Online" ↔
      leaseOnlineCond (tableIps c.arpTable) (tableMacs c.arpTable)
        (normalizeLease entry) = true)
    ∧ (out4.actual_status = "Online" ∨ out4.actual_status = "Offline")
    ∧ (out6.actual_status = "Online" ↔
      leaseOnlineCond (tableIps c.ndpTable) (tableMacs c.ndpTable)
        (normalizeLease entry) = true)
    ∧ (out6.actual_status = "Online" ∨ out6.actual_status = "Offline")
    ∧ (∀ ndp2, (dhcpExecute (some { c with ndpTable := ndp2 }) p).dhcpv4
        = (dhcpExecute (some c) p).dhcpv4)
    ∧ (∀ arp2, (dhcpExecute (some { c with arpTable := arp2 }) p).dhcpv6
        = (dhcpExecute (some c) p).dhcpv6) := by
  have hst4 := processLease_status _ _ _ _ h4
  have hst6 := processLease_status _ _ _ _ h6
  refine ⟨?_, ?_, ?_, ?_, ?_, ?_⟩
  · rw [hst4]
    cases hc : leaseOnlineCond (tableIps c.arpTable) (tableMacs c.arpTable)
        (normalizeLease entry) <;> simp [hc]
  · rw [hst4]
    cases leaseOnlineCond (tableIps c.arpTable) (tableMacs c.arpTable)
        (normalizeLease entry) <;> simp
  · rw [hst6]
    cases hc : leaseOnlineCond (tableIps c.ndpTable) (tableMacs c.ndpTable)
        (normalizeLease entry) <;> simp [hc]
  · rw [hst6]
    cases leaseOnlineCond (tableIps c.ndpTable) (tableMacs c.ndpTable)
        (normalizeLease entry) <;> simp
  · intro ndp2
    have hsome := mapOption_isSome_congr
      (processLease (tableIps ndp2) (tableMacs ndp2))
      (processLease (tableIps c.ndpTable) (tableMacs c.ndpTable))
      (fun a => processLease_isSome_congr _ _ _ _ a) c.dhcpv6Leases
    unfold dhcpExecute
    cases hv4 : mapOption
        (processLease (tableIps c.arpTable) (tableMacs c.arpTable))
        c.dhcpv4Leases <;>
      cases hv6 : mapOption
        (processLease (tableIps c.ndpTable) (tableMacs c.ndpTable))
        c.dhcpv6Leases <;>
      cases hv6b : mapOption
        (processLease (tableIps ndp2) (tableMacs ndp2))
        c.dhcpv6Leases <;>
      simp_all
  · intro arp2
    have hsome := mapOption_isSome_congr
      (processLease (tableIps arp2) (tableMacs arp2))
      (processLease (tableIps c.arpTable) (tableMacs c.arpTable))
      (fun a => processLease_isSome_congr _ _ _ _ a) c.dhcpv4Leases
    unfold dhcpExecute
    cases hv4 : mapOption
        (processLease (tableIps c.arpTable) (tableMacs c.arpTable))
        c.dhcpv4Leases <;>
      cases hv4b : mapOption
        (processLease (tableIps arp2) (tableMacs arp2))
        c.dhcpv4Leases <;>
      cases hv6 : mapOption
        (processLease (tableIps c.ndpTable) (tableMacs c.ndpTable))
        c.dhcpv6Leases <;>
      simp_all

/-- Witness for C1: a concrete v4 lease whose raw `online` flag is `false`
but whose ip sits in the ARP table is reported `"Online"` (and the same
lease against a matching NDP table on the v6 side). -/
theorem dhcp_actual_status_reconciliation_witness :
    ({ ip := "10.0.0.9", mac := "aa:bb:cc:00:00:01", hostname := none,
       online := some false, actual_status := "Online" } : LeaseOut).actual_status
      = "Online" :=
  ((dhcp_actual_status_reconciliation
    { dhcpv4Leases := [{ ip := some "10.0.0.9", address := none,
                         mac := some "aa:bb:cc:00:00:01", hostname := none,
                         clientHostname := none, online := some false }],
      dhcpv6Leases := [],
      arpTable := [{ ip := "10.0.0.9", mac := "aa:bb:cc:00:00:01",
                     intf := "em0", hostname := "" }],
      ndpTable := [{ ip := "10.0.0.9", mac := "aa:bb:cc:00:00:01",
                     intf := "em0", hostname := "" }] }
    { search := none, mac := none, ip := none, ipv6 := none }
    { ip := some "10.0.0.9", address := none, mac := some "aa:bb:cc:00:00:01",
      hostname := none, clientHostname := none, online := some false }
    { ip := "10.0.0.9", mac := "aa:bb:cc:00:00:01", hostname := none,
      online := some false, actual_status := "Online" }
    { ip := "10.0.0.9", mac := "aa:bb:cc:00:00:01", hostname := none,
      online := some false, actual_status := "Online" }
    (by decide) (by decide)).1).mpr (by decide)

/-- C9: `DHCPTool.execute` never reads its `params` argument: for any two
argument dicts the result over the same collaborator data is identical. -/
theorem dhcp_params_have_no_effect (client : Option DhcpClient)
    (p1 p2 : Params) : dhcpExecute client p1 = dhcpExecute client p2 := rfl

lemma lowerStr_ne_empty (s : String) (h : s ≠ "") : lowerStr s ≠ "" := by
  intro hc
  apply h
  have hdata : s.data.map Char.toLower = [] := congrArg String.data hc
  cases s with
  | mk d =>
    have hd : d = [] := List.map_eq_nil_iff.mp hdata
    subst hd
    rfl

lemma resolveQueries_no_capability (c : ArpClient) (s : String)
    (hcap : c.resolveHostInfo = none) (hs : s ≠ "") :
    resolveQueries c s = [lowerStr s] := by
  unfold resolveQueries
  rw [hcap]
  have : (lowerStr s != "") = true := by
    simpa using lowerStr_ne_empty s hs
  simp [List.filter, this]

/-- C2: with the resolver returning the lease identifiers — either at top
level or nested under `dhcpv4` — a search for `"trogdor"` returns the
neighbor entry whose own hostname is empty, enriched with the hostname from
the DHCP lease; matching happened by ip/mac expanded from the lease. -/
theorem arp_search_finds_neighbor_via_dhcp_expansion :
    (arpExecute ouiNone (some clientTrogdorDirect)
        { search := some "trogdor", mac := none, ip := none, ipv6 := none }).arp
      = [{ ip := "10.0.0.5", mac := "aa:bb:cc:00:11:22", intf := "em0",
           manufacturer := "", hostname := "trogdor-pc",
           dhcp_status := "Offline" }]
    ∧ (arpExecute ouiNone (some clientTrogdorNested)
        { search := some "trogdor", mac := none, ip := none, ipv6 := none }).arp
      = [{ ip := "10.0.0.5", mac := "aa:bb:cc:00:11:22", intf := "em0",
           manufacturer := "", hostname := "trogdor-pc",
           dhcp_status := "Offline" }]
    ∧ neighborTrogdor.hostname = "" := by decide

/-- C3: a search argument that is the single wildcard, whitespace-only, or
empty, with no other filter arguments, yields exactly the same result as no
search argument at all: the full enriched tables. -/
theorem arp_wildcard_search_eq_no_search (oui : String → String)
    (client : Option ArpClient) (s : String)
    (h : stripStr s = "*" ∨ stripStr s = "") :
    arpExecute oui client { search := some s, mac := none, ip := none, ipv6 := none }
      = arpExecute oui client { search := none, mac := none, ip := none, ipv6 := none } := by
  cases client with
  | none => rfl
  | some c =>
    by_cases hs : s = ""
    · subst hs; rfl
    · have hbs : (s != "") = true := by simpa using hs
      have htrim : (stripStr s == "*" || stripStr s == "") = true := by
        rcases h with h | h <;> simp [h]
      simp [arpExecute, hbs, htrim, applyStandaloneFilters, enrichedArp, enrichedNdp]

/-- Witness for C3 at concrete inputs (wildcard and whitespace-only). -/
theorem arp_wildcard_search_eq_no_search_witness :
    arpExecute ouiNone (some clientTwoMacs)
        { search := some "*", mac := none, ip := none, ipv6 := none }
      = arpExecute ouiNone (some clientTwoMacs)
        { search := none, mac := none, ip := none, ipv6 := none }
    ∧ arpExecute ouiNone (some clientTwoMacs)
        { search := some "  ", mac := none, ip := none, ipv6 := none }
      = arpExecute ouiNone (some clientTwoMacs)
        { search := none, mac := none, ip := none, ipv6 := none } :=
  ⟨arp_wildcard_search_eq_no_search ouiNone (some clientTwoMacs) "*"
      (Or.inl (by decide)),
   arp_wildcard_search_eq_no_search ouiNone (some clientTwoMacs) "  "
      (Or.inr (by decide))⟩

/-- C7: the standalone `mac` filter keeps exactly the entries whose mac
equals the filter after lower-casing; a search query keeps the entries where
some token is a substring of ip, mac, or hostname; and on a concrete table
the two return different result sets. -/
theorem arp_mac_filter_vs_search (oui : String → String) (c : ArpClient)
    (mf s : String) (hmf : mf ≠ "") (hs1 : s ≠ "") (hs2 : stripStr s ≠ "*")
    (hs3 : stripStr s ≠ "") (hcap : c.resolveHostInfo = none) :
    (arpExecute oui (some c)
        { search := none, mac := some mf, ip := none, ipv6 := none }).arp
      = (enrichedArp oui c).filter (fun e => lowerStr e.mac == lowerStr mf)
    ∧ (arpExecute oui (some c)
        { search := some s, mac := none, ip := none, ipv6 := none }).arp
      = (c.arpTable.filter (matchAny [lowerStr s])).map (enrichOne oui c)
    ∧ (arpExecute ouiNone (some clientTwoMacs)
        { search := none, mac := some "AA:BB:CC:DD:EE:FF", ip := none,
          ipv6 := none }).arp
      ≠ (arpExecute ouiNone (some clientTwoMacs)
        { search := some "aa:bb", mac := none, ip := none, ipv6 := none }).arp := by
  refine ⟨?_, ?_, ?_⟩
  · have hbm : (mf != "") = true := by simpa using hmf
    simp [arpExecute, applyStandaloneFilters, hbm]
  · have hbs : (s != "") = true := by simpa using hs1
    have htrim : (stripStr s == "*" || stripStr s == "") = false := by
      simp [hs2, hs3]
    rw [← resolveQueries_no_capability c s hcap hs1]
    simp [arpExecute, hbs, htrim]
  · decide

/-- Witness for C7: the concrete divergence between the exact-match mac
filter and the substring search over the same table. -/
theorem arp_mac_filter_vs_search_witness :
    (arpExecute ouiNone (some clientTwoMacs)
        { search := none, mac := some "AA:BB:CC:DD:EE:FF", ip := none,
          ipv6 := none }).arp
      ≠ (arpExecute ouiNone (some clientTwoMacs)
        { search := some "aa:bb", mac := none, ip := none, ipv6 := none }).arp :=
  (arp_mac_filter_vs_search ouiNone clientTwoMacs "AA:BB:CC:DD:EE:FF" "aa:bb"
    (by decide) (by decide) (by decide) (by decide) rfl).2.2

/-- C10: with a non-empty, non-wildcard `search`, `ARPTool.execute` returns
from the search branch before the standalone `mac` / `ip` / `ipv6` filters
are evaluated, so those parameters have no effect on the result. -/
theorem arp_search_ignores_standalone_filters (oui : String → String)
    (client : Option ArpClient) (s : String)
    (m i v m2 i2 v2 : Option String)
    (h1 : s ≠ "") (h2 : stripStr s ≠ "*") (h3 : stripStr s ≠ "") :
    arpExecute oui client { search := some s, mac := m, ip := i, ipv6 := v }
      = arpExecute oui client { search := some s, mac := m2, ip := i2, ipv6 := v2 } := by
  cases client with
  | none => rfl
  | some c =>
    have hbs : (s != "") = true := by simpa using h1
    have htrim : (stripStr s == "*" || stripStr s == "") = false := by
      simp [h2, h3]
    simp [arpExecute, hbs, htrim]

/-- Witness for C10 at a concrete search with and without extra filters. -/
theorem arp_search_ignores_standalone_filters_witness :
    arpExecute ouiNone (some clientTwoMacs)
        { search := some "aa:bb", mac := some "aa:bb:00:11:22:33",
          ip := some "10.0.0.1", ipv6 := some "fe80::1" }
      = arpExecute ouiNone (some clientTwoMacs)
        { search := some "aa:bb", mac := none, ip := none, ipv6 := none } :=
  arp_search_ignores_standalone_filters ouiNone (some clientTwoMacs) "aa:bb"
    (some "aa:bb:00:11:22:33") (some "10.0.0.1") (some "fe80::1")
    none none none (by decide) (by decide) (by decide)

lemma lookupConn_setConn_self (s : Conns) (c : String)
    (q : List (Option SseEvent)) : lookupConn (setConn s c q) c = some q := by
  simp [setConn, lookupConn]

lemma lookupConn_removeConn_self (s : Conns) (c : String) :
    lookupConn (removeConn s c) c = none := by
  induction s with
  | nil => rfl
  | cons a rest ih =>
    obtain ⟨k, q⟩ := a
    by_cases h : k = c
    · simp [removeConn, h, ih]
    · simp [removeConn, lookupConn, h, ih]

lemma lookupConn_removeConn_other (s : Conns) (c c2 : String) (h : c2 ≠ c) :
    lookupConn (removeConn s c) c2 = lookupConn s c2 := by
  induction s with
  | nil => rfl
  | cons a rest ih =>
    obtain ⟨k, q⟩ := a
    by_cases h2 : k = c
    · have hc : c ≠ c2 := fun hcc => h hcc.symm
      simp [removeConn, lookupConn, h2, hc, ih]
    · by_cases h3 : k = c2
      · simp [removeConn, lookupConn, h2, h3, h]
      · simp [removeConn, lookupConn, h2, h3, ih]

lemma lookupConn_setConn_other (s : Conns) (c c2 : String)
    (q : List (Option SseEvent)) (h : c2 ≠ c) :
    lookupConn (setConn s c q) c2 = lookupConn s c2 := by
  have hk : c ≠ c2 := fun hcc => h hcc.symm
  simp [setConn, lookupConn, hk, lookupConn_removeConn_other s c c2 h]

lemma sendToClient_registered (s : Conns) (c : String)
    (q : List (Option SseEvent)) (d : SendData) (f : String)
    (h : lookupConn s c = some q) :
    sendToClient s c d f
      = (.sent, setConn s c (q ++ [some (wrapEvent d f)])) := by
  unfold sendToClient
  rw [h]

/-- C4: publishing to a client id with no registered queue — never
subscribed, or removed by the cleanup that follows the close sentinel or
unsubscribe — raises an explicit 404 `ClientNotConnected` error and
modifies no queue; publishing to a registered id succeeds and appends
exactly one event to that queue and to no other. -/
theorem send_to_client_registry_semantics (s : Conns) (c cp : String)
    (q : List (Option SseEvent)) (d : SendData) (f : String)
    (habs : lookupConn s c = none) (hpres : lookupConn s cp = some q) :
    sendToClient s c d f
      = (.httpError 404 ("Client " ++ c ++ " not connected"), s)
    ∧ (sendToClient s cp d f).1 = .sent
    ∧ lookupConn (sendToClient s cp d f).2 cp
      = some (q ++ [some (wrapEvent d f)])
    ∧ (∀ c3, c3 ≠ cp → lookupConn (sendToClient s cp d f).2 c3 = lookupConn s c3)
    ∧ (∀ s2 c4 d4 f4, sendToClient (unsubscribeConn s2 c4) c4 d4 f4
        = (.httpError 404 ("Client " ++ c4 ++ " not connected"),
           unsubscribeConn s2 c4)) := by
  refine ⟨?_, ?_, ?_, ?_, ?_⟩
  · unfold sendToClient
    rw [habs]
  · unfold sendToClient
    rw [hpres]
  · unfold sendToClient
    rw [hpres]
    exact lookupConn_setConn_self s cp (q ++ [some (wrapEvent d f)])
  · intro c3 h3
    unfold sendToClient
    rw [hpres]
    exact lookupConn_setConn_other s cp c3 (q ++ [some (wrapEvent d f)]) h3
  · intro s2 c4 d4 f4
    unfold sendToClient unsubscribeConn
    rw [lookupConn_removeConn_self]

/-- Witness for C4: on the registry holding only client `bob`, a publish to
`alice` 404s leaving the registry unchanged, a publish to `bob` appends the
wrapped event, and after unsubscribing `bob` a further publish 404s. -/
theorem send_to_client_registry_semantics_witness :
    sendToClient [("bob", [])] "alice"
        { event := none, id := none, data := none } "fid"
      = (.httpError 404 ("Client " ++ "alice" ++ " not connected"),
         [("bob", [])])
    ∧ lookupConn (sendToClient [("bob", [])] "bob"
        { event := none, id := none, data := none } "fid").2 "bob"
      = some ([] ++ [some (wrapEvent
          { event := none, id := none, data := none } "fid")])
    ∧ sendToClient (unsubscribeConn [("bob", [])] "bob") "bob"
        { event := none, id := none, data := none } "fid"
      = (.httpError 404 ("Client " ++ "bob" ++ " not connected"),
         unsubscribeConn [("bob", [])] "bob") := by
  have h := send_to_client_registry_semantics [("bob", [])] "alice" "bob" []
    { event := none, id := none, data := none } "fid" (by decide) (by decide)
  exact ⟨h.1, h.2.2.1, h.2.2.2.2 [("bob", [])] "bob"
    { event := none, id := none, data := none } "fid"⟩

/-- C5: subscribe, publish `e1`, publish `e2`, then consume: the stream
yields the synthetic `connected` event carrying the client id first, then
`e1` strictly before `e2` — delivery order equals publish order. -/
theorem sse_single_client_fifo (c : String) (d1 d2 : SendData)
    (f1 f2 : String) :
    (sendToClient (subscribeConn [] c) c d1 f1).1 = .sent
    ∧ (sendToClient (sendToClient (subscribeConn [] c) c d1 f1).2 c d2 f2).1
      = .sent
    ∧ generatorYields c
        ((lookupConn
          (sendToClient (sendToClient (subscribeConn [] c) c d1 f1).2 c d2 f2).2
          c).getD [])
      = [connectedEvent c, wrapEvent d1 f1, wrapEvent d2 f2] := by
  have e1 := sendToClient_registered (subscribeConn [] c) c [] d1 f1
    (lookupConn_setConn_self [] c [])
  have h1 : lookupConn (sendToClient (subscribeConn [] c) c d1 f1).2 c
      = some [some (wrapEvent d1 f1)] := by
    rw [e1]
    simpa using lookupConn_setConn_self (subscribeConn [] c) c
      ([] ++ [some (wrapEvent d1 f1)])
  have e2 := sendToClient_registered
    (sendToClient (subscribeConn [] c) c d1 f1).2 c
    [some (wrapEvent d1 f1)] d2 f2 h1
  refine ⟨by rw [e1], by rw [e2], ?_⟩
  rw [e2]
  rw [show ((SendOutcome.sent,
      setConn (sendToClient (subscribeConn [] c) c d1 f1).2 c
        ([some (wrapEvent d1 f1)] ++ [some (wrapEvent d2 f2)])) :
      SendOutcome × Conns).2
    = setConn (sendToClient (subscribeConn [] c) c d1 f1).2 c
        ([some (wrapEvent d1 f1)] ++ [some (wrapEvent d2 f2)]) from rfl]
  rw [lookupConn_setConn_self]
  rfl

/-- C6 counterexample: with no collaborator, the `system` tool does not
return a fixture (dummy) response: it returns the structured error object,
whose `status` field is `"error"` and whose `error` field is non-empty. -/
theorem system_tool_no_client_not_fixture :
    (systemExecute none).status = "error"
    ∧ (systemExecute none).error ≠ "" := by decide

/-- C6 (amended): with no external collaborator configured, `arp` and
`dhcp` return their documented fixture (dummy) responses, and `system`
returns the structured error object, all without raising. -/
theorem read_tools_degrade_without_client (oui : String → String)
    (p q : Params) :
    arpExecute oui none p = arpDummyData
    ∧ dhcpExecute none q = dhcpDummyData
    ∧ systemExecute none
      = { status := "error",
          error := "Failed to get system status: NoneType object has no attribute get_system_status",
          payload := "" } :=
  ⟨rfl, rfl, rfl⟩

/-- C8 evaluated at the failing input: a missing tool name yields -32602 as
claimed, and an exception raised while executing a known tool yields -32603 as
claimed, but a `tools/call` (or `tool/call`) naming an unknown tool yields
-32603 — not -32601 — and the direct path raises 500 — not 404 — because
the blanket `except Exception` in `call_tool` swallows its own 404
`HTTPException` and re-raises it as a 500. -/
theorem jsonrpc_unknown_tool_maps_to_internal_error :
    jsonrpcEndpoint execAllOk
        { id := some "1", method := "tools/call",
          params := some { name := none, tool := none, arguments := none,
                           args := none, protocolVersion := none } }
      = .rpcError (some "1") (-32602) "Invalid params: tool name is required"
    ∧ jsonrpcEndpoint execAllOk
        { id := some "2", method := "tools/call",
          params := some { name := some "nonexistent", tool := none,
                           arguments := none, args := none,
                           protocolVersion := none } }
      = .rpcError (some "2") (-32603)
          "Error executing tool: 404: Tool not found: nonexistent"
    ∧ jsonrpcEndpoint execAllOk
        { id := some "3", method := "tool/call",
          params := some { name := none, tool := some "nonexistent",
                           arguments := none, args := none,
                           protocolVersion := none } }
      = .rpcError (some "3") (-32603)
          "Error executing tool: 404: Tool not found: nonexistent"
    ∧ callTool execAllOk "nonexistent" noParams
      = .httpError 500 "Error executing tool: 404: Tool not found: nonexistent"
    ∧ jsonrpcEndpoint execRaises
        { id := some "4", method := "tools/call",
          params := some { name := some "arp", tool := none,
                           arguments := none, args := none,
                           protocolVersion := none } }
      = .rpcError (some "4") (-32603) "Error executing tool: boom"
    ∧ callTool execRaises "arp" noParams
      = .httpError 500 "Error executing tool: boom" := by decide
